import Mathlib

set_option maxRecDepth 40000

/-!
Verification development for the kerbrute probing session
(package session, file session.go, plus the spec of the repository).

The Go code is shallowly embedded: pure helpers become Lean functions,
calls into the external gokrb5 library (KDC transport, message
marshaling, configuration parsing) are parameterized as explicit
environment records, and side effects (bytes sent to the KDC, strings
written to the hash sink, log lines) are returned as explicit traces.
-/

/-- Model of a Go `error` value as seen by the session code: either a
`messages.KRBError` (a well-formed Kerberos protocol error carrying a
numeric error code) or any other error, kept as its message string. The
session code distinguishes exactly these two shapes via the type
assertion `err.(messages.KRBError)`. -/
inductive GoError
| krbError (errorCode : Int)
| simple (msg : String)
deriving DecidableEq

/-- Constant from gokrb5 iana/errorcode (RFC 4120): additional
pre-authentication required. -/
def KDC_ERR_PREAUTH_REQUIRED : Int := 25

/-- Go html/template escaping of one character in HTML text context
(html/template htmlReplacementTable): NUL, double quote, ampersand,
apostrophe, plus, less-than, equals, greater-than and backtick are
rewritten; every other character passes through. The session renders
its krb5 config through html/template, so interpolated values undergo
this escaping. -/
def htmlEscapeChar (c : Char) : String :=
  if c = Char.ofNat 0 then "�"
  else if c = Char.ofNat 34 then "&#34;"
  else if c = Char.ofNat 38 then "&amp;"
  else if c = Char.ofNat 39 then "&#39;"
  else if c = Char.ofNat 43 then "&#43;"
  else if c = Char.ofNat 60 then "&lt;"
  else if c = Char.ofNat 61 then "&#61;"
  else if c = Char.ofNat 62 then "&gt;"
  else if c = Char.ofNat 96 then "&#96;"
  else String.singleton c

/-- Escape a character list through `htmlEscapeChar`. -/
def htmlEscapeList : List Char → List Char
| [] => []
| c :: cs => (htmlEscapeChar c).data ++ htmlEscapeList cs

/-- Go html/template interpolation of a string value in text context. -/
def htmlEscape (s : String) : String := ⟨htmlEscapeList s.data⟩

/-- A character left unchanged by html/template text-context escaping,
i.e. one outside htmlReplacementTable. -/
def htmlSafeChar (c : Char) : Bool :=
  !(c = Char.ofNat 0 || c = Char.ofNat 34 || c = Char.ofNat 38 ||
    c = Char.ofNat 39 || c = Char.ofNat 43 || c = Char.ofNat 60 ||
    c = Char.ofNat 61 || c = Char.ofNat 62 || c = Char.ofNat 96)

/-- A string interpolated verbatim by html/template text-context escaping. -/
def htmlSafe (s : String) : Bool := s.data.all htmlSafeChar

/-- Model of Go strings.ToUpper as used on domain names. -/
def strToUpper (s : String) : String := ⟨s.data.map Char.toUpper⟩

/-- Boolean substring test: does `sub` occur contiguously inside `s`. -/
def strContains (s sub : String) : Bool := decide (sub.data <:+: s.data)

/-- Rendering of the constant template krb5ConfigTemplateDNS with the
realm interpolated (html/template text-context escaping applied), i.e.
the text `[libdefaults]`, newline, `dns_lookup_kdc = true`, newline,
`default_realm = ` realm, newline. -/
def krb5ConfigTemplateDNS (realm : String) : String :=
  "[libdefaults]\ndns_lookup_kdc = true\n" ++ "default_realm = " ++ htmlEscape realm ++ "\n"

/-- Rendering of the constant template krb5ConfigTemplateKDC with realm
and domain controller interpolated (html/template text-context escaping
applied): a libdefaults section with `default_realm`, then a realms
section mapping the realm to a block with `kdc = ` host and
`admin_server = ` host lines (tab-indented), closed by a brace. -/
def krb5ConfigTemplateKDC (realm domainController : String) : String :=
  "[libdefaults]\n" ++ "default_realm = " ++ htmlEscape realm ++
  "\n[realms]\n" ++ htmlEscape realm ++ " = \x7b\n\t" ++ "kdc = " ++
  htmlEscape domainController ++ "\n\t" ++ "admin_server = " ++
  htmlEscape domainController ++ "\n\x7d\n"

/-- buildKrb5Template from session.go: choose the DNS-discovery
template when no domain controller is given, the explicit-KDC template
otherwise, and render it with realm and domain controller. -/
def buildKrb5Template (realm domainController : String) : String :=
  if domainController = "" then krb5ConfigTemplateDNS realm
  else krb5ConfigTemplateKDC realm domainController

/-- The libdefaults part of the parsed gokrb5 configuration, kept to
the field the session code touches: the default ticket encryption type
identifiers. -/
structure LibDefaults where
  DefaultTktEnctypeIDs : List Int
deriving DecidableEq

/-- The parsed gokrb5 configuration, kept to the fields the session
code reads or writes: libdefaults and the SOCKS5 proxy settings
installed by EnableSocks5. -/
structure Krb5Config where
  LibDefaults : LibDefaults
  Socks5Proxy : String
  Socks5Username : String
  Socks5Password : String
deriving DecidableEq

/-- Model of Config.EnableSocks5: record the proxy endpoint and
credentials on the configuration. -/
def enableSocks5 (c : Krb5Config) (proxy username password : String) : Krb5Config :=
  { c with Socks5Proxy := proxy, Socks5Username := username, Socks5Password := password }

/-- KerbruteSession from session.go. The hash file handle is modeled by
its name (`none` models a nil *os.File), the parsed configuration
pointer by an optional `Krb5Config` (`none` models nil), and the Kdcs
map by an association list. -/
structure KerbruteSession where
  Domain : String
  Realm : String
  Kdcs : List (Int × String)
  ConfigString : String
  Config : Option Krb5Config
  Verbose : Bool
  SafeMode : Bool
  HashFile : Option String
deriving DecidableEq

/-- The Go zero value of KerbruteSession, which is what the early
return paths of NewKerbruteSession hand back. -/
def zeroKerbruteSession : KerbruteSession :=
  { Domain := "", Realm := "", Kdcs := [], ConfigString := "",
    Config := none, Verbose := false, SafeMode := false, HashFile := none }

/-- KerbruteSessionOptions from session.go (the private logger field is
logging-only and not modeled). -/
structure KerbruteSessionOptions where
  Domain : String
  DomainController : String
  Verbose : Bool
  SafeMode : Bool
  Downgrade : Bool
  HashFilename : String
  Socks5Proxy : String
  Socks5Username : String
  Socks5Password : String
deriving DecidableEq

/-- Environment of NewKerbruteSession: the outcomes of its calls into
the OS and the gokrb5 library. `openFile` models os.OpenFile in append
mode returning the handle (by name); `newFromString` models
kconfig.NewFromString; `getKDCs` models Config.GetKDCs and returns the
kdcs value together with the optional error, since the Go code uses the
kdcs return value even when the error is non-nil. -/
structure SessionEnv where
  openFile : String → Except GoError String
  newFromString : String → Except String Krb5Config
  getKDCs : Krb5Config → String → (List (Int × String)) × Option String

/-- Outcome of NewKerbruteSession: either a Go panic (the code panics
when its self-generated configuration fails to parse) or a normal
return of the session value together with the optional error. -/
inductive ConstructResult
| panicked (msg : String)
| returned (k : KerbruteSession) (err : Option GoError)
deriving DecidableEq

/-- The configuration transformations NewKerbruteSession applies after
parsing: install SOCKS5 proxy settings when a proxy is supplied, then,
when downgrade is requested, overwrite the default ticket encryption
types with the single legacy identifier 23 (arcfour-hmac-md5).
Config.WithContext only attaches a context and is identity on the
modeled fields. -/
def assembleConfig (options : KerbruteSessionOptions) (parsed : Krb5Config) : Krb5Config :=
  let withProxy :=
    if options.Socks5Proxy = "" then parsed
    else enableSocks5 parsed options.Socks5Proxy options.Socks5Username options.Socks5Password
  if options.Downgrade then
    { withProxy with LibDefaults := { withProxy.LibDefaults with DefaultTktEnctypeIDs := [23] } }
  else withProxy

/-- NewKerbruteSession from session.go. Logging calls are not modeled.
The empty-domain and hash-file-open-failure paths return the zero
session with an error; a configuration parse failure panics; a KDC
resolution failure replaces the error with a configuration error naming
the realm, and the assembled session is returned together with that
error by the final `return k, err`. -/
def NewKerbruteSession (env : SessionEnv) (options : KerbruteSessionOptions) : ConstructResult :=
  if options.Domain = "" then
    ConstructResult.returned zeroKerbruteSession (some (GoError.simple "domain must not be empty"))
  else
    match (if options.HashFilename = "" then Except.ok none
           else (env.openFile options.HashFilename).map some : Except GoError (Option String)) with
    | Except.error e => ConstructResult.returned zeroKerbruteSession (some e)
    | Except.ok hashFile =>
      let realm := strToUpper options.Domain
      let configstring := buildKrb5Template realm options.DomainController
      match env.newFromString configstring with
      | Except.error e => ConstructResult.panicked e
      | Except.ok parsed =>
        let configWithContext := assembleConfig options parsed
        let kdcsAndErr := env.getKDCs configWithContext realm
        let err : Option GoError :=
          match kdcsAndErr.2 with
          | some _ => some (GoError.simple
              ("Couldn't find any KDCs for realm " ++ realm ++ ". Please specify a Domain Controller"))
          | none => none
        ConstructResult.returned
          { Domain := options.Domain, Realm := realm, Kdcs := kdcsAndErr.1,
            ConfigString := configstring, Config := some configWithContext,
            Verbose := options.Verbose, SafeMode := options.SafeMode,
            HashFile := hashFile } err

/-- Model of messages.ASRep, abstracted to the one field the session
code reads directly: the rendered principal name string
(asrep.CName.PrincipalNameString()), used in log lines. The encrypted
part is only passed onward to the hash conversion, which is an
environment function. -/
structure ASRep where
  CNameString : String
deriving DecidableEq

/-- A log line emitted by the session code, tagged with its level. -/
inductive LogEvent
| debug (msg : String)
| notice (msg : String)
| error (msg : String)
deriving DecidableEq

/-- Environment of DumpASRepHash: util.ASRepToHashcat (repository code
outside the session package, abstracted as a function returning the
hash string or an error message) and the outcome of
HashFile.WriteString on a given string (`none` is success, `some` is
the error message of the write failure). -/
structure DumpEnv where
  asrepToHashcat : ASRep → Except String String
  writeString : String → Option String

/-- DumpASRepHash from session.go. Its Go signature returns nothing;
here its observable effects are returned: the list of strings passed to
HashFile.WriteString and the log lines. If hash conversion fails, a
debug line is logged and nothing is written; otherwise a notice is
logged and, when a hash file is configured, the hash followed by a
newline is written, a write failure being logged and swallowed. -/
def DumpASRepHash (env : DumpEnv) (k : KerbruteSession) (asrep : ASRep) :
    List String × List LogEvent :=
  match env.asrepToHashcat asrep with
  | Except.error e =>
    ([], [LogEvent.debug
      ("[!] Got encrypted TGT for " ++ asrep.CNameString ++ ", but couldn't convert to hash: " ++ e)])
  | Except.ok hash =>
    let notice := LogEvent.notice
      ("[+] " ++ asrep.CNameString ++ " has no pre auth required. Dumping hash to crack offline:\n" ++ hash)
    match k.HashFile with
    | none => ([], [notice])
    | some _ =>
      match env.writeString (hash ++ "\n") with
      | none => ([hash ++ "\n"], [notice])
      | some werr => ([hash ++ "\n"], [notice, LogEvent.error ("[!] Error writing hash to file: " ++ werr)])

/-- Environment of TestUsername: the outcomes of its calls into gokrb5
for this username. `asreqErr` is the error of messages.NewASReqForTGT
(`none` when construction succeeds); `marshalResult` the outcome of
req.Marshal; `sendToKDC` the outcome of cl.SendToKDC on the marshaled
bytes; `unmarshalASRep` the outcome of ASRep.Unmarshal on the reply
bytes; `dump` the environment of the hash export. Bytes are lists of
naturals. -/
structure UsernameEnv where
  asreqErr : Option String
  marshalResult : Except GoError (List Nat)
  sendToKDC : List Nat → Except GoError (List Nat)
  unmarshalASRep : List Nat → Except GoError ASRep
  dump : DumpEnv

/-- Observable side effects of one TestUsername call: strings printed
to stdout via fmt.Printf, payloads passed to SendToKDC, strings written
to the hash sink, and log lines. -/
structure ProbeTrace where
  printed : List String
  sent : List (List Nat)
  writes : List String
  logs : List LogEvent
deriving DecidableEq

/-- TestUsername from session.go. A failing AS-REQ construction is only
printed and execution continues; a marshal failure returns the error; a
successful send is unmarshaled as an AS-REP, on success the hash is
dumped and the probe reports true with no error; a send error that is a
Kerberos protocol error with code KDC_ERR_PREAUTH_REQUIRED reports true
with no error, any other protocol error code reports false with that
error, and a non-protocol error reports false with that error. -/
def TestUsername (env : UsernameEnv) (k : KerbruteSession) (username : String) :
    (Bool × Option GoError) × ProbeTrace :=
  let printed : List String :=
    match env.asreqErr with
    | some e => [e]
    | none => []
  match env.marshalResult with
  | Except.error e => ((false, some e), ⟨printed, [], [], []⟩)
  | Except.ok b =>
    match env.sendToKDC b with
    | Except.ok rb =>
      match env.unmarshalASRep rb with
      | Except.error e => ((false, some e), ⟨printed, [b], [], []⟩)
      | Except.ok asrep =>
        let d := DumpASRepHash env.dump k asrep
        ((true, none), ⟨printed, [b], d.1, d.2⟩)
    | Except.error e =>
      match e with
      | GoError.krbError code =>
        if code = KDC_ERR_PREAUTH_REQUIRED then ((true, none), ⟨printed, [b], [], []⟩)
        else ((false, some (GoError.krbError code)), ⟨printed, [b], [], []⟩)
      | GoError.simple m => ((false, some (GoError.simple m)), ⟨printed, [b], [], []⟩)

/-- Environment of TestLogin: the outcome of Client.IsConfigured (a
boolean and an optional error, returned as-is by the probe when the
boolean is false) and of Client.Login (`none` is a successful
handshake). -/
structure LoginEnv where
  isConfigured : Bool × Option GoError
  login : Option GoError

/-- Modelled from the spec: the classifier TestLoginError called by
TestLogin is repository code not present under src (only its call site
is). Per the spec, a failed login handshake has its underlying Kerberos
error classified and returned to the caller together with a false
success flag; the classification function itself is abstract and passed
as a parameter. -/
def TestLoginError (classify : GoError → GoError) (err : GoError) : Bool × Option GoError :=
  (false, some (classify err))

/-- TestLogin from session.go: if the client reports itself not
configured the probe returns false with that error; a successful login
returns true with no error; a failed login returns the classified
error. -/
def TestLogin (env : LoginEnv) (classify : GoError → GoError) (k : KerbruteSession)
    (username password : String) : Bool × Option GoError :=
  match env.isConfigured with
  | (false, err) => (false, err)
  | (true, _) =>
    match env.login with
    | none => (true, none)
    | some err => TestLoginError classify err

/-- One invocation of a session method, with its environment. -/
inductive SessionOp
| loginOp (env : LoginEnv) (classify : GoError → GoError) (username password : String)
| usernameOp (env : UsernameEnv) (username : String)
| dumpOp (env : DumpEnv) (asrep : ASRep)

/-- The value returned (or the effects produced) by one session method
invocation. -/
inductive OpOutput
| loginOut (r : Bool × Option GoError)
| usernameOut (r : (Bool × Option GoError) × ProbeTrace)
| dumpOut (r : List String × List LogEvent)

/-- Run one session method. All three Go methods have value receivers
and assign no session field, so the session state after the call is the
session state before it. -/
def runOp (k : KerbruteSession) : SessionOp → KerbruteSession × OpOutput
| SessionOp.loginOp env classify u p => (k, OpOutput.loginOut (TestLogin env classify k u p))
| SessionOp.usernameOp env u => (k, OpOutput.usernameOut (TestUsername env k u))
| SessionOp.dumpOp env a => (k, OpOutput.dumpOut (DumpASRepHash env k a))

/-- Thread a session through a sequence of method invocations. -/
def runOps (k : KerbruteSession) : List SessionOp → KerbruteSession
| [] => k
| op :: ops => runOps (runOp k op).1 ops

/-- Concrete probe environment: the KDC answers with the Kerberos
protocol error KDC_ERR_PREAUTH_REQUIRED. -/
def envPreauth : UsernameEnv :=
  { asreqErr := none,
    marshalResult := Except.ok [1, 2, 3],
    sendToKDC := fun _ => Except.error (GoError.krbError KDC_ERR_PREAUTH_REQUIRED),
    unmarshalASRep := fun _ => Except.error (GoError.simple "unused"),
    dump := { asrepToHashcat := fun _ => Except.error "unused", writeString := fun _ => none } }

/-- Concrete probe environment: the KDC answers with a valid AS-REP
that converts to the hash string "h". -/
def envASRep : UsernameEnv :=
  { asreqErr := none,
    marshalResult := Except.ok [1, 2, 3],
    sendToKDC := fun _ => Except.ok [9, 9],
    unmarshalASRep := fun _ => Except.ok { CNameString := "alice" },
    dump := { asrepToHashcat := fun _ => Except.ok "h", writeString := fun _ => none } }

/-- Concrete probe environment: the KDC answers with the Kerberos
protocol error code 6 (unknown principal). -/
def envUnknownPrincipal : UsernameEnv :=
  { envPreauth with sendToKDC := fun _ => Except.error (GoError.krbError 6) }

/-- Concrete probe environment: marshaling the AS-REQ fails after the
AS-REQ construction step already reported an error. -/
def envMarshalFail : UsernameEnv :=
  { envPreauth with
    asreqErr := some "asreq construction failed",
    marshalResult := Except.error (GoError.simple "marshal failed") }

/-- Concrete session with a configured hash sink. -/
def sessionWithSink : KerbruteSession :=
  { zeroKerbruteSession with
    Domain := "example.com",
    Realm := "EXAMPLE.COM",
    HashFile := some "hashes.txt" }

/-- C1: if the KDC answer to the unauthenticated AS-REQ is a Kerberos
protocol error with code KDC_ERR_PREAUTH_REQUIRED, TestUsername returns
true with no error and writes nothing to the hash sink. -/
theorem testUsername_preauth_required (env : UsernameEnv) (k : KerbruteSession) (u : String)
    (b : List Nat)
    (hm : env.marshalResult = Except.ok b)
    (hs : env.sendToKDC b = Except.error (GoError.krbError KDC_ERR_PREAUTH_REQUIRED)) :
    (TestUsername env k u).1 = (true, none) ∧ (TestUsername env k u).2.writes = [] := by
  simp [TestUsername, hm, hs]

/-- Witness for C1 at a concrete environment. -/
theorem testUsername_preauth_required_witness :
    (TestUsername envPreauth sessionWithSink "alice").1 = (true, none)
    ∧ (TestUsername envPreauth sessionWithSink "alice").2.writes = [] :=
  testUsername_preauth_required envPreauth sessionWithSink "alice" [1, 2, 3] rfl rfl

/-- C2: if the raw KDC response arrives without transport error and
unmarshals as a valid AS-REP, TestUsername returns true with no error,
its sink writes are exactly those of the hash exporter, and when a sink
is configured and hash conversion succeeds exactly one
newline-terminated hash line is written. -/
theorem testUsername_asrep_export (env : UsernameEnv) (k : KerbruteSession) (u : String)
    (b rb : List Nat) (asrep : ASRep)
    (hm : env.marshalResult = Except.ok b)
    (hs : env.sendToKDC b = Except.ok rb)
    (hu : env.unmarshalASRep rb = Except.ok asrep) :
    (TestUsername env k u).1 = (true, none)
    ∧ (TestUsername env k u).2.writes = (DumpASRepHash env.dump k asrep).1
    ∧ (∀ hash, env.dump.asrepToHashcat asrep = Except.ok hash → k.HashFile ≠ none →
        (TestUsername env k u).2.writes = [hash ++ "\n"]) := by
  refine ⟨by simp [TestUsername, hm, hs, hu], by simp [TestUsername, hm, hs, hu], ?_⟩
  intro hash hh hf
  simp [TestUsername, hm, hs, hu, DumpASRepHash, hh]
  cases hfile : k.HashFile with
  | none => exact absurd hfile hf
  | some f =>
    cases hw : env.dump.writeString (hash ++ "\n") <;> simp [hfile, hw]

/-- Witness for C2 at a concrete environment with a configured sink. -/
theorem testUsername_asrep_export_witness :
    (TestUsername envASRep sessionWithSink "alice").1 = (true, none)
    ∧ (TestUsername envASRep sessionWithSink "alice").2.writes = ["h" ++ "\n"] := by
  have h := testUsername_asrep_export envASRep sessionWithSink "alice" [1, 2, 3] [9, 9]
    { CNameString := "alice" } rfl rfl rfl
  exact ⟨h.1, h.2.2 "h" rfl (by decide)⟩

/-- C3: a Kerberos protocol error with a code other than
KDC_ERR_PREAUTH_REQUIRED makes TestUsername return false with exactly
that classified protocol error; a non-protocol send error or a reply
that fails to unmarshal as an AS-REP makes it return false with exactly
that unclassified error; in all three cases nothing is written to the
hash sink. -/
theorem testUsername_error_propagation (env : UsernameEnv) (k : KerbruteSession) (u : String)
    (b : List Nat) (hm : env.marshalResult = Except.ok b) :
    (∀ c, env.sendToKDC b = Except.error (GoError.krbError c) → c ≠ KDC_ERR_PREAUTH_REQUIRED →
       (TestUsername env k u).1 = (false, some (GoError.krbError c))
       ∧ (TestUsername env k u).2.writes = [])
    ∧ (∀ m, env.sendToKDC b = Except.error (GoError.simple m) →
       (TestUsername env k u).1 = (false, some (GoError.simple m))
       ∧ (TestUsername env k u).2.writes = [])
    ∧ (∀ rb e, env.sendToKDC b = Except.ok rb → env.unmarshalASRep rb = Except.error e →
       (TestUsername env k u).1 = (false, some e)
       ∧ (TestUsername env k u).2.writes = []) := by
  refine ⟨?_, ?_, ?_⟩
  · intro c hs hc
    simp [TestUsername, hm, hs, hc]
  · intro m hs
    simp [TestUsername, hm, hs]
  · intro rb e hs hu
    simp [TestUsername, hm, hs, hu]

/-- Witness for C3 at a concrete environment answering with error code
6 (unknown principal). -/
theorem testUsername_error_propagation_witness :
    (TestUsername envUnknownPrincipal sessionWithSink "nosuch").1
      = (false, some (GoError.krbError 6))
    ∧ (TestUsername envUnknownPrincipal sessionWithSink "nosuch").2.writes = [] :=
  (testUsername_error_propagation envUnknownPrincipal sessionWithSink "nosuch"
    [1, 2, 3] rfl).1 6 rfl (by decide)

/-- C10: if marshaling the AS-REQ fails, TestUsername returns false
with the marshal error, sends no bytes to any KDC and writes nothing to
the hash sink; by contrast a failure of the AS-REQ construction step
alone does not by itself cause a return: the probe result and its sends
and sink writes are those of the same environment without the
construction failure, only the printed diagnostic differs. -/
theorem testUsername_marshal_failure (env : UsernameEnv) (k : KerbruteSession) (u : String) :
    (∀ e, env.marshalResult = Except.error e →
       (TestUsername env k u).1 = (false, some e)
       ∧ (TestUsername env k u).2.sent = []
       ∧ (TestUsername env k u).2.writes = [])
    ∧ (∀ m, env.asreqErr = some m →
       (TestUsername env k u).1 = (TestUsername { env with asreqErr := none } k u).1
       ∧ (TestUsername env k u).2.sent = (TestUsername { env with asreqErr := none } k u).2.sent
       ∧ (TestUsername env k u).2.writes = (TestUsername { env with asreqErr := none } k u).2.writes
       ∧ (TestUsername env k u).2.printed = [m]
       ∧ (TestUsername { env with asreqErr := none } k u).2.printed = []) := by
  constructor
  · intro e hm
    simp [TestUsername, hm]
  · intro m ha
    cases hm : env.marshalResult with
    | error e => simp [TestUsername, hm, ha]
    | ok b =>
      cases hs : env.sendToKDC b with
      | ok rb =>
        cases hu : env.unmarshalASRep rb with
        | error e => simp [TestUsername, hm, ha, hs, hu]
        | ok asrep => simp [TestUsername, hm, ha, hs, hu]
      | error e =>
        cases e with
        | krbError c =>
          by_cases hc : c = KDC_ERR_PREAUTH_REQUIRED <;>
            simp [TestUsername, hm, ha, hs, hc]
        | simple msg => simp [TestUsername, hm, ha, hs]

/-- Witness for C10 at a concrete environment whose AS-REQ construction
and marshaling both fail. -/
theorem testUsername_marshal_failure_witness :
    ((TestUsername envMarshalFail sessionWithSink "alice").1
       = (false, some (GoError.simple "marshal failed"))
     ∧ (TestUsername envMarshalFail sessionWithSink "alice").2.sent = []
     ∧ (TestUsername envMarshalFail sessionWithSink "alice").2.writes = [])
    ∧ (TestUsername envMarshalFail sessionWithSink "alice").2.printed
        = ["asreq construction failed"] :=
  ⟨(testUsername_marshal_failure envMarshalFail sessionWithSink "alice").1
      (GoError.simple "marshal failed") rfl,
   ((testUsername_marshal_failure envMarshalFail sessionWithSink "alice").2
      "asreq construction failed" rfl).2.2.2.1⟩

/-- Concrete login environment: configured client, login rejected by
the KDC with Kerberos error code 24 (pre-auth failed, i.e. a bad
password). -/
def envBadPassword : LoginEnv :=
  { isConfigured := (true, none), login := some (GoError.krbError 24) }

/-- A concrete classifier that keeps the error unchanged. -/
def identityClassify : GoError → GoError := fun e => e

/-- C8: TestLogin returns true with no error exactly when the client is
configured and the full pre-authenticated login handshake succeeds; a
failed handshake returns false together with the classified underlying
Kerberos error, and a client that is not configured returns false with
the configuration check error. The embedding is a total function of the
KDC response, so no response can make it panic. -/
theorem testLogin_outcomes (env : LoginEnv) (classify : GoError → GoError)
    (k : KerbruteSession) (u p : String) :
    (TestLogin env classify k u p = (true, none)
       ↔ env.isConfigured.1 = true ∧ env.login = none)
    ∧ (∀ e, env.isConfigured.1 = true → env.login = some e →
        TestLogin env classify k u p = (false, some (classify e)))
    ∧ (env.isConfigured.1 = false →
        TestLogin env classify k u p = (false, env.isConfigured.2)) := by
  cases hic : env.isConfigured with
  | mk ok cerr =>
    cases ok with
    | false =>
      refine ⟨?_, ?_, ?_⟩
      · simp [TestLogin, hic]
      · intro e h1 _
        simp at h1
      · intro _
        simp [TestLogin, hic]
    | true =>
      cases hl : env.login with
      | none =>
        refine ⟨?_, ?_, ?_⟩
        · simp [TestLogin, hic, hl]
        · intro e _ h2
          simp at h2
        · intro h
          simp at h
      | some e0 =>
        refine ⟨?_, ?_, ?_⟩
        · simp [TestLogin, hic, hl, TestLoginError]
        · intro e _ h2
          injection h2 with h2
          subst h2
          simp [TestLogin, hic, hl, TestLoginError]
        · intro h
          simp at h

/-- Witness for C8: with a bad password the login handshake fails with
Kerberos error code 24 and TestLogin reports false with that classified
error. -/
theorem testLogin_outcomes_witness :
    TestLogin envBadPassword identityClassify zeroKerbruteSession "alice" "guess"
      = (false, some (identityClassify (GoError.krbError 24))) :=
  (testLogin_outcomes envBadPassword identityClassify zeroKerbruteSession "alice" "guess").2.1
    (GoError.krbError 24) rfl rfl

/-- Concrete dump environment: conversion yields hash "h" but the sink
write fails. -/
def envDumpWriteFail : DumpEnv :=
  { asrepToHashcat := fun _ => Except.ok "h",
    writeString := fun _ => some "disk full" }

/-- C9: DumpASRepHash is a total function with no error in its result
type, so it never propagates an error to its caller. If hash conversion
fails nothing is written to the sink; if conversion succeeds and a sink
is configured exactly the hash followed by a newline is written; if no
sink is configured nothing is written; and a sink write failure changes
nothing about the write except adding an error log line, being
swallowed rather than returned. -/
theorem dumpASRepHash_sink_discipline (env : DumpEnv) (k : KerbruteSession) (asrep : ASRep) :
    (∀ e, env.asrepToHashcat asrep = Except.error e → (DumpASRepHash env k asrep).1 = [])
    ∧ (∀ hash, env.asrepToHashcat asrep = Except.ok hash → k.HashFile ≠ none →
        (DumpASRepHash env k asrep).1 = [hash ++ "\n"])
    ∧ (k.HashFile = none → (DumpASRepHash env k asrep).1 = [])
    ∧ (∀ hash werr, env.asrepToHashcat asrep = Except.ok hash → k.HashFile ≠ none →
        env.writeString (hash ++ "\n") = some werr →
        (DumpASRepHash env k asrep).1 = [hash ++ "\n"]
        ∧ LogEvent.error ("[!] Error writing hash to file: " ++ werr)
            ∈ (DumpASRepHash env k asrep).2) := by
  refine ⟨?_, ?_, ?_, ?_⟩
  · intro e hh
    simp [DumpASRepHash, hh]
  · intro hash hh hf
    cases hfile : k.HashFile with
    | none => exact absurd hfile hf
    | some f =>
      cases hw : env.writeString (hash ++ "\n") <;> simp [DumpASRepHash, hh, hfile, hw]
  · intro hf
    cases hh : env.asrepToHashcat asrep <;> simp [DumpASRepHash, hh, hf]
  · intro hash werr hh hf hw
    cases hfile : k.HashFile with
    | none => exact absurd hfile hf
    | some f => simp [DumpASRepHash, hh, hfile, hw]

/-- Witness for C9: a failing sink write still records exactly the one
hash line handed to the sink and logs the failure. -/
theorem dumpASRepHash_sink_discipline_witness :
    (DumpASRepHash envDumpWriteFail sessionWithSink { CNameString := "alice" }).1
      = ["h" ++ "\n"]
    ∧ LogEvent.error ("[!] Error writing hash to file: " ++ "disk full")
        ∈ (DumpASRepHash envDumpWriteFail sessionWithSink { CNameString := "alice" }).2 :=
  (dumpASRepHash_sink_discipline envDumpWriteFail sessionWithSink
    { CNameString := "alice" }).2.2.2 "h" "disk full" rfl (by decide) rfl

/-- A concrete parse result for the rendered configuration, with the
gokrb5 default ticket encryption types abbreviated. -/
def baseConfig : Krb5Config :=
  { LibDefaults := { DefaultTktEnctypeIDs := [18, 17, 23] },
    Socks5Proxy := "", Socks5Username := "", Socks5Password := "" }

/-- Concrete construction environment in which one KDC resolves. -/
def envResolves : SessionEnv :=
  { openFile := fun f => Except.ok f,
    newFromString := fun _ => Except.ok baseConfig,
    getKDCs := fun _ _ => ([(1, "dc1.example.com:88")], none) }

/-- Concrete construction environment in which no KDC resolves. -/
def envNoKDC : SessionEnv :=
  { envResolves with getKDCs := fun _ _ => ([], some "no KDCs found") }

/-- Concrete options: plain session for example.com, no downgrade, no
hash file, no proxy. -/
def optsPlain : KerbruteSessionOptions :=
  { Domain := "example.com", DomainController := "", Verbose := false, SafeMode := false,
    Downgrade := false, HashFilename := "", Socks5Proxy := "",
    Socks5Username := "", Socks5Password := "" }

/-- Concrete options: same as optsPlain but with downgrade requested. -/
def optsDowngrade : KerbruteSessionOptions :=
  { optsPlain with Downgrade := true }

/-- The session NewKerbruteSession assembles for envResolves and
optsPlain. -/
def kPlain : KerbruteSession :=
  { Domain := "example.com", Realm := "EXAMPLE.COM",
    Kdcs := [(1, "dc1.example.com:88")],
    ConfigString := buildKrb5Template "EXAMPLE.COM" "",
    Config := some baseConfig, Verbose := false, SafeMode := false, HashFile := none }

/-- The session NewKerbruteSession assembles for envResolves and
optsDowngrade: the configuration carries only encryption type 23. -/
def kDowngrade : KerbruteSession :=
  { kPlain with
    Config := some { baseConfig with LibDefaults := { DefaultTktEnctypeIDs := [23] } } }

/-- The session NewKerbruteSession assembles, and returns next to the
error, for envNoKDC and optsPlain. -/
def kNoKDC : KerbruteSession :=
  { kPlain with Kdcs := [] }

/-- The probe methods have value receivers and assign no session field,
so one invocation leaves the session unchanged. -/
theorem runOp_fst (k : KerbruteSession) (op : SessionOp) : (runOp k op).1 = k := by
  cases op <;> rfl

/-- Any sequence of probe invocations leaves the session unchanged. -/
theorem runOps_id (ops : List SessionOp) (k : KerbruteSession) : runOps k ops = k := by
  induction ops generalizing k with
  | nil => rfl
  | cons op ops ih =>
    show runOps (runOp k op).1 ops = k
    rw [runOp_fst, ih]

/-- C5: a successful construction with downgrade requested carries a
parsed configuration whose permitted encryption type list is exactly
the one legacy identifier 23. -/
theorem downgrade_enctypes (env : SessionEnv) (options : KerbruteSessionOptions)
    (k : KerbruteSession) (cfg : Krb5Config)
    (h : NewKerbruteSession env options = ConstructResult.returned k none)
    (hd : options.Downgrade = true)
    (hc : k.Config = some cfg) :
    cfg.LibDefaults.DefaultTktEnctypeIDs = [23] := by
  unfold NewKerbruteSession at h
  split at h
  · simp at h
  · split at h
    · simp at h
    · dsimp only at h
      split at h
      · exact ConstructResult.noConfusion h
      · injection h with h1 h2
        subst h1
        simp at hc
        subst hc
        simp [assembleConfig, hd]

/-- Witness for C5 at a concrete environment and options. -/
theorem downgrade_enctypes_witness :
    ({ baseConfig with LibDefaults := { DefaultTktEnctypeIDs := [23] } }
       : Krb5Config).LibDefaults.DefaultTktEnctypeIDs = [23] :=
  downgrade_enctypes envResolves optsDowngrade kDowngrade
    { baseConfig with LibDefaults := { DefaultTktEnctypeIDs := [23] } }
    (by decide) rfl (by decide)

/-- C7: a successful construction records the caller's domain and the
uppercased domain as realm, and the realm equality is preserved by
every subsequent sequence of probe invocations, which leave the session
value untouched. -/
theorem realm_uppercase_invariant (env : SessionEnv) (options : KerbruteSessionOptions)
    (k : KerbruteSession)
    (h : NewKerbruteSession env options = ConstructResult.returned k none) :
    k.Domain = options.Domain
    ∧ k.Realm = strToUpper options.Domain
    ∧ ∀ ops, (runOps k ops).Realm = strToUpper options.Domain ∧ runOps k ops = k := by
  unfold NewKerbruteSession at h
  split at h
  · simp at h
  · split at h
    · simp at h
    · dsimp only at h
      split at h
      · exact ConstructResult.noConfusion h
      · injection h with h1 h2
        subst h1
        refine ⟨rfl, rfl, ?_⟩
        intro ops
        rw [runOps_id]
        exact ⟨rfl, rfl⟩

/-- Witness for C7 at a concrete environment and options. -/
theorem realm_uppercase_invariant_witness :
    kPlain.Domain = optsPlain.Domain
    ∧ kPlain.Realm = strToUpper optsPlain.Domain
    ∧ (runOps kPlain []).Realm = strToUpper optsPlain.Domain :=
  ⟨(realm_uppercase_invariant envResolves optsPlain kPlain (by decide)).1,
   (realm_uppercase_invariant envResolves optsPlain kPlain (by decide)).2.1,
   ((realm_uppercase_invariant envResolves optsPlain kPlain (by decide)).2.2 []).1⟩

/-- Counterexample for C4 as stated: at a concrete environment in which
no KDC resolves, NewKerbruteSession returns a non-nil configuration
error naming the realm, yet hands the caller the fully assembled
session kNoKDC, which differs from the Go zero value of the session
type. -/
theorem newKerbruteSession_partial_session_counterexample :
    NewKerbruteSession envNoKDC optsPlain
      = ConstructResult.returned kNoKDC
          (some (GoError.simple
            "Couldn't find any KDCs for realm EXAMPLE.COM. Please specify a Domain Controller"))
    ∧ kNoKDC ≠ zeroKerbruteSession := by
  constructor
  · decide
  · decide

/-- C4 as amended: an empty domain returns a configuration error with
the zero session; a hash file that fails to open returns that error
with the zero session; and when the KDC set cannot be resolved the
returned error is a configuration error naming the realm and suggesting
an explicit domain controller, but the assembled session is returned
alongside that non-nil error, so callers must check the error rather
than rely on the session being withheld. -/
theorem newKerbruteSession_error_paths (env : SessionEnv) (options : KerbruteSessionOptions) :
    (options.Domain = "" →
       NewKerbruteSession env options
         = ConstructResult.returned zeroKerbruteSession
             (some (GoError.simple "domain must not be empty")))
    ∧ (∀ e, options.Domain ≠ "" → options.HashFilename ≠ "" →
        env.openFile options.HashFilename = Except.error e →
        NewKerbruteSession env options
          = ConstructResult.returned zeroKerbruteSession (some e))
    ∧ (∀ f cfg msg, options.Domain ≠ "" →
        (if options.HashFilename = "" then Except.ok none
         else (env.openFile options.HashFilename).map some : Except GoError (Option String))
          = Except.ok f →
        env.newFromString (buildKrb5Template (strToUpper options.Domain) options.DomainController)
          = Except.ok cfg →
        (env.getKDCs (assembleConfig options cfg) (strToUpper options.Domain)).2 = some msg →
        NewKerbruteSession env options
          = ConstructResult.returned
              { Domain := options.Domain, Realm := strToUpper options.Domain,
                Kdcs := (env.getKDCs (assembleConfig options cfg) (strToUpper options.Domain)).1,
                ConfigString :=
                  buildKrb5Template (strToUpper options.Domain) options.DomainController,
                Config := some (assembleConfig options cfg),
                Verbose := options.Verbose, SafeMode := options.SafeMode, HashFile := f }
              (some (GoError.simple ("Couldn't find any KDCs for realm "
                 ++ strToUpper options.Domain ++ ". Please specify a Domain Controller")))) := by
  refine ⟨?_, ?_, ?_⟩
  · intro hdom
    simp [NewKerbruteSession, hdom]
  · intro e hdom hfn hopen
    simp [NewKerbruteSession, hdom, hfn, hopen, Except.map]
  · intro f cfg msg hdom hfile hcfg hkdc
    simp [NewKerbruteSession, hdom, hfile, hcfg, hkdc]

/-- Witness for the amended C4 at concrete inputs: the empty-domain
path and the unresolvable-KDC path. -/
theorem newKerbruteSession_error_paths_witness :
    NewKerbruteSession envResolves { optsPlain with Domain := "" }
      = ConstructResult.returned zeroKerbruteSession
          (some (GoError.simple "domain must not be empty"))
    ∧ NewKerbruteSession envNoKDC optsPlain
        = ConstructResult.returned
            { Domain := optsPlain.Domain, Realm := strToUpper optsPlain.Domain,
              Kdcs := (envNoKDC.getKDCs (assembleConfig optsPlain baseConfig)
                        (strToUpper optsPlain.Domain)).1,
              ConfigString :=
                buildKrb5Template (strToUpper optsPlain.Domain) optsPlain.DomainController,
              Config := some (assembleConfig optsPlain baseConfig),
              Verbose := optsPlain.Verbose, SafeMode := optsPlain.SafeMode, HashFile := none }
            (some (GoError.simple ("Couldn't find any KDCs for realm "
               ++ strToUpper optsPlain.Domain ++ ". Please specify a Domain Controller"))) :=
  ⟨(newKerbruteSession_error_paths envResolves { optsPlain with Domain := "" }).1 rfl,
   (newKerbruteSession_error_paths envNoKDC optsPlain).2.2 none baseConfig "no KDCs found"
     (by decide) rfl rfl rfl⟩

/-- A character the HTML escaper leaves alone is rendered as itself. -/
theorem htmlEscapeChar_safe (c : Char) (h : htmlSafeChar c = true) :
    htmlEscapeChar c = String.singleton c := by
  unfold htmlSafeChar at h
  simp only [Bool.or_eq_true, Bool.not_eq_true', Bool.or_eq_false_iff,
    decide_eq_false_iff_not] at h
  obtain ⟨⟨⟨⟨⟨⟨⟨⟨h0, h34⟩, h38⟩, h39⟩, h43⟩, h60⟩, h61⟩, h62⟩, h96⟩ := h
  unfold htmlEscapeChar
  rw [if_neg h0, if_neg h34, if_neg h38, if_neg h39, if_neg h43, if_neg h60,
    if_neg h61, if_neg h62, if_neg h96]

/-- A character list of safe characters is escaped to itself. -/
theorem htmlEscapeList_safe (l : List Char) (h : l.all htmlSafeChar = true) :
    htmlEscapeList l = l := by
  induction l with
  | nil => rfl
  | cons c cs ih =>
    rw [List.all_cons, Bool.and_eq_true] at h
    unfold htmlEscapeList
    rw [htmlEscapeChar_safe c h.1, ih h.2]
    rfl

/-- A safe string is interpolated verbatim by the HTML escaper. -/
theorem htmlEscape_safe (s : String) (h : htmlSafe s = true) : htmlEscape s = s := by
  unfold htmlEscape
  rw [htmlEscapeList_safe s.data h]

/-- The first sixteen characters of the rendered DNS-discovery template
are fixed, whatever the realm. -/
theorem krb5DNS_take16 (realm : String) :
    (krb5ConfigTemplateDNS realm).data.take 16 = ("[libdefaults]\ndn" : String).data := by
  unfold krb5ConfigTemplateDNS
  simp only [String.data_append, List.append_assoc]
  rw [List.take_append_of_le_length] <;> decide

/-- The first sixteen characters of the rendered explicit-KDC template
are fixed, whatever the realm and host, and differ from those of the
DNS-discovery template. -/
theorem krb5KDC_take16 (realm dc : String) :
    (krb5ConfigTemplateKDC realm dc).data.take 16 = ("[libdefaults]\nde" : String).data := by
  unfold krb5ConfigTemplateKDC
  simp only [String.data_append, List.append_assoc]
  rw [List.take_append_eq_append_take]
  have hl : (("[libdefaults]\n" : String).data).length = 14 := by decide
  rw [hl]
  rw [List.take_append_of_le_length] <;> decide

/-- C6 as amended: the rendered configuration is the DNS-discovery
template exactly when the domain controller string is empty; for a
non-empty host the rendered text contains the kdc, admin_server and
default_realm entries with the host and realm as interpolated by the
HTML escaper of the template engine; and that escaping is the identity
on strings free of the characters it rewrites, so interpolation is
verbatim precisely for such strings, not for arbitrary ones. -/
theorem buildKrb5Template_rendering (realm dc : String) :
    (buildKrb5Template realm dc = krb5ConfigTemplateDNS realm ↔ dc = "")
    ∧ (dc ≠ "" →
        strContains (buildKrb5Template realm dc) ("kdc = " ++ htmlEscape dc) = true
        ∧ strContains (buildKrb5Template realm dc) ("admin_server = " ++ htmlEscape dc) = true
        ∧ strContains (buildKrb5Template realm dc) ("default_realm = " ++ htmlEscape realm) = true)
    ∧ (htmlSafe realm = true → htmlEscape realm = realm)
    ∧ (htmlSafe dc = true → htmlEscape dc = dc) := by
  refine ⟨⟨?_, ?_⟩, ?_, htmlEscape_safe realm, htmlEscape_safe dc⟩
  · intro he
    by_contra hdc
    have h1 := krb5DNS_take16 realm
    have h2 := krb5KDC_take16 realm dc
    unfold buildKrb5Template at he
    rw [if_neg hdc] at he
    rw [he, h1] at h2
    exact absurd h2 (by decide)
  · intro h
    unfold buildKrb5Template
    rw [if_pos h]
  · intro hdc
    unfold buildKrb5Template
    rw [if_neg hdc]
    refine ⟨?_, ?_, ?_⟩
    · unfold strContains
      rw [decide_eq_true_eq]
      refine ⟨("[libdefaults]\n" ++ "default_realm = " ++ htmlEscape realm ++ "\n[realms]\n"
                ++ htmlEscape realm ++ " = \x7b\n\t").data,
              ("\n\t" ++ "admin_server = " ++ htmlEscape dc ++ "\n\x7d\n").data, ?_⟩
      unfold krb5ConfigTemplateKDC
      simp only [String.data_append, List.append_assoc]
    · unfold strContains
      rw [decide_eq_true_eq]
      refine ⟨("[libdefaults]\n" ++ "default_realm = " ++ htmlEscape realm ++ "\n[realms]\n"
                ++ htmlEscape realm ++ " = \x7b\n\t" ++ "kdc = " ++ htmlEscape dc
                ++ "\n\t").data,
              ("\n\x7d\n" : String).data, ?_⟩
      unfold krb5ConfigTemplateKDC
      simp only [String.data_append, List.append_assoc]
    · unfold strContains
      rw [decide_eq_true_eq]
      refine ⟨("[libdefaults]\n" : String).data,
              ("\n[realms]\n" ++ htmlEscape realm ++ " = \x7b\n\t" ++ "kdc = "
                ++ htmlEscape dc ++ "\n\t" ++ "admin_server = " ++ htmlEscape dc
                ++ "\n\x7d\n").data, ?_⟩
      unfold krb5ConfigTemplateKDC
      simp only [String.data_append, List.append_assoc]

/-- Counterexample for C6 as stated: the host is not interpolated
verbatim for arbitrary strings. For the domain controller string a&b
the rendered configuration does not contain the text kdc = a&b; it
contains the HTML-escaped text instead. -/
theorem buildKrb5Template_verbatim_counterexample :
    strContains (buildKrb5Template "EXAMPLE.COM" "a&b") "kdc = a&b" = false
    ∧ strContains (buildKrb5Template "EXAMPLE.COM" "a&b") "kdc = a&amp;b" = true := by
  constructor
  · decide
  · decide

/-- Witness for the amended C6 at concrete inputs: the empty host
selects the DNS template, a plain host appears in a kdc entry, and the
realm EXAMPLE.COM is escaped to itself. -/
theorem buildKrb5Template_rendering_witness :
    buildKrb5Template "EXAMPLE.COM" "" = krb5ConfigTemplateDNS "EXAMPLE.COM"
    ∧ strContains (buildKrb5Template "EXAMPLE.COM" "dc1.example.com")
        ("kdc = " ++ htmlEscape "dc1.example.com") = true
    ∧ htmlEscape "EXAMPLE.COM" = "EXAMPLE.COM" :=
  ⟨(buildKrb5Template_rendering "EXAMPLE.COM" "").1.2 rfl,
   ((buildKrb5Template_rendering "EXAMPLE.COM" "dc1.example.com").2.1 (by decide)).1,
   (buildKrb5Template_rendering "EXAMPLE.COM" "").2.2.1 (by decide)⟩

example : htmlEscape "a&b" = "a&amp;b" := by decide
example : htmlEscape "a+b" = "a&#43;b" := by decide
example : htmlEscape "x=y" = "x&#61;y" := by decide
example : htmlEscape "dc1.example.com" = "dc1.example.com" := by decide
example : strContains (buildKrb5Template "EXAMPLE.COM" "dc1.example.com") "kdc = dc1.example.com" = true := by decide
example : strContains (buildKrb5Template "EXAMPLE.COM" "") "dns_lookup_kdc = true" = true := by decide
